import Mathlib

/-!
Verification of the lasso.js SAML service-provider middleware.

The development shallowly embeds the repository's JavaScript/TypeScript
Express middleware (lib/express) and its C++ N-API binding layer
(src/login.cc, src/logout.cc, src/identity.cc, src/session.cc) as pure
Lean functions.  The external libLasso federation protocol engine is not
part of the repository; its message-building and parsing operations are
modelled as an abstract record of functions (`Engine`), and the host
platform primitives (JavaScript string operations, the WHATWG URL class)
are modelled by small faithful Lean functions.
-/

namespace LassoJS

/-! ### JavaScript string primitives -/

/-- Model of the JavaScript expression `s.startsWith(pre)`. -/
def jsStartsWith (s pre : String) : Bool :=
  pre.data.isPrefixOf s.data

/-- Model of JavaScript truthiness for an optional string value:
`undefined`/`null` and the empty string are falsy. -/
def jsTruthy : Option String → Bool
  | none => false
  | some s => !(s == "")

/-- Model of the JavaScript expression `s || d` for a string `s`
(the empty string is falsy and is replaced by the default). -/
def jsOrStr (s d : String) : String :=
  if s == "" then d else s

/-- Model of the JavaScript expression `x || d` where `x` is a nullable
string (`null`, `undefined` and `""` all fall back to the default). -/
def jsOrOpt (x : Option String) (d : String) : String :=
  match x with
  | none => d
  | some s => jsOrStr s d

/-- Model of the JavaScript expression `s.replace(/c/g, rep)` for a
single-character pattern: every occurrence of the character is replaced. -/
def jsReplaceChar (s : String) (c : Char) (rep : String) : String :=
  String.join (s.data.map fun ch => if ch = c then rep else String.singleton ch)

/-- Embedding of `escapeHtml` from lib/express: the five global
single-character replacements, applied in source order (`&` first). -/
def escapeHtml (str : String) : String :=
  jsReplaceChar (jsReplaceChar (jsReplaceChar (jsReplaceChar (jsReplaceChar
    str '&' "&amp;") '<' "&lt;") '>' "&gt;") '"' "&quot;") '\x27' "&#x27;"

/-! ### Model of the WHATWG URL host extraction

The middleware calls `new URL(url)` and reads `parsed.host`.  The URL
class is a Node.js platform primitive, not repository code; it is
modelled here on the fragment the validator exercises: a URL parses only
when it begins with a valid scheme (`ALPHA *(ALPHA / DIGIT / "+" / "-" /
".")` followed by `:`); for a `scheme://authority...` URL the host is
the authority up to the first `/`, `?` or `#`, with any userinfo before
the last `@` stripped; for a scheme without `//` the host is empty.
Strings with no valid scheme (in particular anything starting with `/`)
fail to parse, as `new URL` throws on them. -/

/-- Characters allowed in a URL scheme after the first. -/
def isSchemeChar (c : Char) : Bool :=
  c.isAlpha || c.isDigit || c == '+' || c == '-' || c == '.'

/-- Split a character list at the first `':'`, returning the part before
and after it. -/
def splitSchemeAux : List Char → Option (List Char × List Char)
  | [] => none
  | c :: cs =>
    if c == ':' then some ([], cs)
    else
      match splitSchemeAux cs with
      | none => none
      | some (pre, post) => some (c :: pre, post)

/-- A valid scheme is nonempty, starts with a letter, and continues with
scheme characters. -/
def validSchemeChars : List Char → Bool
  | [] => false
  | c :: cs => c.isAlpha && cs.all isSchemeChar

/-- The part of an authority after the last `'@'` (userinfo stripped). -/
def afterLastAt (l : List Char) : List Char :=
  (l.reverse.takeWhile (fun c => !(c == '@'))).reverse

/-- Model of `new URL(url).host`: `none` when `new URL` throws. -/
def urlHost (url : String) : Option String :=
  match splitSchemeAux url.data with
  | none => none
  | some (scheme, rest) =>
    if validSchemeChars scheme then
      if rest.take 2 == ['/', '/'] then
        let auth := (rest.drop 2).takeWhile fun c => !(c == '/' || c == '?' || c == '#')
        some (String.mk (afterLastAt auth))
      else
        some ""
    else none

/-- Embedding of `isValidRedirectUrl` from lib/express: relative URLs
that are not protocol-relative are accepted; otherwise, with a nonempty
allow-list configured, the URL must parse and its host must be in the
list; in every other case the URL is rejected. -/
def isValidRedirectUrl (url : String) (allowedHosts : Option (List String)) : Bool :=
  if jsStartsWith url "/" && !jsStartsWith url "//" then true
  else
    match allowedHosts with
    | some hosts =>
      if hosts.length != 0 then
        match urlHost url with
        | some host => hosts.contains host
        | none => false
      else false
    | none => false

/-! ### Data of the native protocol objects

The underlying libLasso objects (LassoIdentity, LassoSession) are opaque
to the binding layer: every operation on them goes through the engine.
Their state is represented as an opaque blob. -/

/-- Opaque state of a native LassoIdentity object. -/
structure IdentityData where
  blob : String
deriving DecidableEq

/-- Opaque state of a native LassoSession object. -/
structure SessionData where
  blob : String
deriving DecidableEq

/-- Opaque value returned by the application's onAuth callback. -/
structure UserData where
  blob : String
deriving DecidableEq

/-- A SAML2 NameID node as used on `profile->nameIdentifier`: both the
content and the Format attribute may be null. -/
structure SamlNameID where
  content : Option String
  format : Option String
deriving DecidableEq

/-- The LassoProfile fields that the binding layer in src/login.cc and
src/logout.cc reads and writes (`nameIdentifier`, `identity`, `session`,
`msg_url`, `msg_body`, `msg_relayState`). -/
structure Profile where
  nameIdentifier : Option SamlNameID := none
  identity : Option IdentityData := none
  session : Option SessionData := none
  msgUrl : Option String := none
  msgBody : Option String := none
  msgRelayState : Option String := none
deriving DecidableEq

/-- A freshly created profile: `lasso_login_new` / `lasso_logout_new`
start with every profile field null. -/
def Profile.empty : Profile := {}

/-- The libLasso federation protocol engine, an external collaborator of
this repository.  Each field models one `lasso_*` C function called by
the binding layer: message operations may fail (nonzero return code,
surfaced by ThrowIfError) or succeed with an updated profile;
serialization operations may return null. -/
structure Engine where
  loginProcessResponseMsg : Profile → String → Except String Profile
  loginAcceptSso : Profile → Except String Profile
  logoutInitRequest : Profile → Except String Profile
  logoutBuildRequestMsg : Profile → Except String Profile
  logoutProcessRequestMsg : Profile → String → Except String Profile
  logoutProcessResponseMsg : Profile → String → Except String Profile
  logoutBuildResponseMsg : Profile → Except String Profile
  identityEmpty : IdentityData
  identityDump : IdentityData → Option String
  identityFromDump : String → Option IdentityData
  sessionEmpty : SessionData
  sessionDump : SessionData → Option String
  sessionFromDump : String → Option SessionData
  sessionIsEmpty : SessionData → Bool
  sessionGetAssertions : SessionData → String → List String

/-- `NameIdFormat.UNSPECIFIED` from lib/types.ts (the constant the
middleware passes as a fallback). -/
def nameIdFormatUnspecified : String :=
  "urn:oasis:names:tc:SAML:1.1:nameid-format:unspecified"

/-- `LASSO_SAML2_NAME_IDENTIFIER_FORMAT_UNSPECIFIED`, the default format
in Login::SetNameId (src/login.cc). -/
def saml2NameIdFormatUnspecified : String :=
  "urn:oasis:names:tc:SAML:2.0:nameid-format:unspecified"

/-! ### The Login transaction wrapper (src/login.cc)

Value-level embedding: the wrapper owns a LassoLogin whose profile state
is a `Profile`.  Where the C++ getters return a copied wrapper object
(GetIdentity / GetSession), the value model returns the underlying data;
the object-identity aspect of that copy is treated separately in the
heap model below. -/

/-- A Login transaction object. -/
structure LoginT where
  profile : Profile
deriving DecidableEq

/-- `new lasso.Login(server)`: `lasso_login_new` starts from an empty
profile. -/
def Login.init : LoginT := ⟨Profile.empty⟩

/-- Login `nameId` getter: null unless `profile->nameIdentifier` exists
and has content. -/
def Login.getNameId (l : LoginT) : Option String :=
  match l.profile.nameIdentifier with
  | none => none
  | some nid => nid.content

/-- Login `nameIdFormat` getter: null unless `profile->nameIdentifier`
exists and has a Format. -/
def Login.getNameIdFormat (l : LoginT) : Option String :=
  match l.profile.nameIdentifier with
  | none => none
  | some nid => nid.format

/-- Login `identity` getter: null when `profile->identity` is null,
otherwise the bound identity (returned as a copy, see the heap model). -/
def Login.getIdentity (l : LoginT) : Option IdentityData :=
  l.profile.identity

/-- Login `session` getter: null when `profile->session` is null,
otherwise the bound session (returned as a copy, see the heap model). -/
def Login.getSession (l : LoginT) : Option SessionData :=
  l.profile.session

/-- Login `relayState` getter. -/
def Login.getRelayState (l : LoginT) : Option String :=
  l.profile.msgRelayState

/-- Login `msgUrl` getter. -/
def Login.getMsgUrl (l : LoginT) : Option String :=
  l.profile.msgUrl

/-- Login `msgBody` getter. -/
def Login.getMsgBody (l : LoginT) : Option String :=
  l.profile.msgBody

/-- Embedding of Login::SetNameId: builds a SAML2 NameID with the given
content, sets its Format (defaulting to the SAML2 unspecified URN) and
replaces `profile->nameIdentifier` with it. -/
def Login.setNameId (l : LoginT) (nameId : String) (format : Option String) : LoginT :=
  let fmt := format.getD saml2NameIdFormatUnspecified
  ⟨{ l.profile with nameIdentifier := some { content := some nameId, format := some fmt } }⟩

/-- A SAML attribute as declared in lib/types.ts. -/
structure SamlAttribute where
  name : String
  nameFormat : Option String := none
  values : List String := []
deriving DecidableEq

/-- A JavaScript argument as seen by a N-API method: an array value, a
non-array value, or a missing argument. -/
inductive JsArg where
  | attrs (l : List SamlAttribute)
  | nonArray (tag : String)
  | missing
deriving DecidableEq

/-- `info[0].IsArray()` (a missing argument is not an array). -/
def JsArg.isArr : JsArg → Bool
  | .attrs _ => true
  | _ => false

/-- Embedding of Login::SetAttributes: the argument must be an array
(otherwise a TypeError is thrown); the body then performs no change at
all to the transaction — the source notes it as a simplified
implementation that does not touch the assertion. -/
def Login.setAttributes (l : LoginT) (arg : JsArg) : Except String LoginT :=
  if arg.isArr then .ok l
  else .error "Expected array of attributes"

/-- Embedding of Login::ProcessResponseMsg:
`lasso_login_process_response_msg` on the wrapped profile. -/
def Login.processResponseMsg (e : Engine) (l : LoginT) (message : String) :
    Except String LoginT :=
  (e.loginProcessResponseMsg l.profile message).map fun p => ⟨p⟩

/-- Embedding of Login::AcceptSso: `lasso_login_accept_sso` on the
wrapped profile. -/
def Login.acceptSso (e : Engine) (l : LoginT) : Except String LoginT :=
  (e.loginAcceptSso l.profile).map fun p => ⟨p⟩

/-- The SP-side operations a caller can perform on a Login transaction
before extracting data from it. -/
inductive LoginOp where
  | setNameId (nameId : String) (format : Option String)
  | setAttributes (arg : JsArg)
  | processResponseMsg (message : String)
  | acceptSso
deriving DecidableEq

/-- Run a single operation on a Login transaction (a thrown error aborts
the sequence). -/
def Login.runOp (e : Engine) (l : LoginT) : LoginOp → Except String LoginT
  | .setNameId n f => .ok (Login.setNameId l n f)
  | .setAttributes a => Login.setAttributes l a
  | .processResponseMsg m => Login.processResponseMsg e l m
  | .acceptSso => Login.acceptSso e l

/-- Run a sequence of operations on a Login transaction. -/
def Login.runOps (e : Engine) : List LoginOp → LoginT → Except String LoginT
  | [], l => .ok l
  | op :: ops, l =>
    match Login.runOp e l op with
    | .error err => .error err
    | .ok l2 => Login.runOps e ops l2

/-- Whether an operation is the acceptSso call. -/
def isAcceptSsoOp : LoginOp → Bool
  | .acceptSso => true
  | _ => false

/-- A sequence of operations that never calls acceptSso. -/
def acceptSsoFree (ops : List LoginOp) : Bool :=
  ops.all fun op => !isAcceptSsoOp op

/-! ### The Logout transaction wrapper (src/logout.cc) -/

/-- A Logout transaction object. -/
structure LogoutT where
  profile : Profile
deriving DecidableEq

/-- `new lasso.Logout(server)`: `lasso_logout_new` starts from an empty
profile. -/
def Logout.init : LogoutT := ⟨Profile.empty⟩

/-- The instance methods registered for the Logout class by
Logout::Init's DefineClass call in src/logout.cc.  These are the only
callable properties of a Logout object (besides its accessors). -/
def Logout.instanceMethodNames : List String :=
  ["initRequest", "buildRequestMsg", "processRequestMsg", "validateRequest",
   "buildResponseMsg", "processResponseMsg", "getNextProviderId"]

/-- The instance accessors registered for the Logout class in
src/logout.cc. -/
def Logout.instanceAccessorNames : List String :=
  ["identity", "session", "msgUrl", "msgBody"]

/-- Model of the JavaScript call `logout.setNameId(nameId, format)` made
by the GET /logout middleware handler.  Property lookup resolves against
the methods registered for the Logout class (Logout.instanceMethodNames,
from src/logout.cc); no `setNameId` method is registered there, nor is
one declared on the Logout interface in lib/index.ts, so the property is
undefined and calling it throws a TypeError. -/
def logoutCallSetNameId (lg : LogoutT) (_nameId : String) (_format : String) :
    Except String LogoutT :=
  if Logout.instanceMethodNames.contains "setNameId" then
    .ok lg
  else
    .error "logout.setNameId is not a function"

/-! ### The Identity and Session wrapper classes
(src/identity.cc, src/session.cc), value level -/

/-- An Identity wrapper object; `identity_` may be null. -/
structure IdentityW where
  data : Option IdentityData
deriving DecidableEq

/-- `new lasso.Identity()`: the constructor creates a fresh empty native
identity. -/
def Identity.new (e : Engine) : IdentityW := ⟨some e.identityEmpty⟩

/-- Embedding of Identity::Dump: null when there is no native object or
`lasso_identity_dump` returns null. -/
def Identity.dump (e : Engine) (x : IdentityW) : Option String :=
  x.data.bind e.identityDump

/-- Embedding of Identity::IsEmpty: an identity with no native object or
a null dump is empty; otherwise emptiness is decided by the dump being
minimal XML (fewer than 50 characters). -/
def Identity.isEmpty (e : Engine) (x : IdentityW) : Bool :=
  match x.data with
  | none => true
  | some d =>
    match e.identityDump d with
    | none => true
    | some s => decide (s.length < 50)

/-- Embedding of Identity::FromDump: restore a native identity from the
dump string, throwing when restoration fails. -/
def Identity.fromDump (e : Engine) (dump : String) : Except String IdentityW :=
  match e.identityFromDump dump with
  | none => .error "Failed to restore identity from dump"
  | some d => .ok ⟨some d⟩

/-- A Session wrapper object; `session_` may be null. -/
structure SessionW where
  data : Option SessionData
deriving DecidableEq

/-- `new lasso.Session()`: the constructor creates a fresh empty native
session. -/
def Session.new (e : Engine) : SessionW := ⟨some e.sessionEmpty⟩

/-- Embedding of Session::Dump. -/
def Session.dump (e : Engine) (x : SessionW) : Option String :=
  x.data.bind e.sessionDump

/-- Embedding of Session::IsEmpty: true with no native object, otherwise
`lasso_session_is_empty`. -/
def Session.isEmpty (e : Engine) (x : SessionW) : Bool :=
  match x.data with
  | none => true
  | some d => e.sessionIsEmpty d

/-- Embedding of Session::GetAssertions: the dumped assertion nodes that
`lasso_session_get_assertions` yields for the provider (an empty array
when there are none). -/
def Session.getAssertions (e : Engine) (x : SessionW) (providerId : String) : List String :=
  match x.data with
  | none => []
  | some d => e.sessionGetAssertions d providerId

/-- Embedding of Session::FromDump: restore a native session from the
dump string, throwing when restoration fails. -/
def Session.fromDump (e : Engine) (dump : String) : Except String SessionW :=
  match e.sessionFromDump dump with
  | none => .error "Failed to restore session from dump"
  | some d => .ok ⟨some d⟩

/-! ### The Express SP middleware (lib/express, createSamlSp)

The HTTP session is the caller's express-session object; the fields
below are the properties the middleware reads or writes (the configured
`sessionProperty` slot is modelled as the `user` field).  `hasRegenerate`
records whether the session store offers `session.regenerate`. -/

/-- The CSRF login state stored in the HTTP session by GET /login. -/
structure LoginStateRec where
  relayState : String
  nonce : String
  timestamp : Int
deriving DecidableEq

/-- The middleware-visible part of the caller's HTTP session. -/
structure SessionState where
  samlLoginState : Option LoginStateRec := none
  user : Option UserData := none
  samlNameId : Option String := none
  samlNameIdFormat : Option String := none
  hasRegenerate : Bool := true
deriving DecidableEq

/-- The request fields the middleware endpoints read. -/
structure HttpReq where
  returnTo : Option String := none
  bodySamlResponse : Option String := none
  bodyRelayState : Option String := none
  querySamlRequest : Option String := none
  querySamlResponse : Option String := none
deriving DecidableEq

/-- User information extracted from the SAML assertion (the SamlUser
object handed to onAuth). -/
structure SamlUser where
  nameId : String
  nameIdFormat : String
  sessionIndex : Option String := none
  attributes : List (String × String) := []
deriving DecidableEq

/-- The middleware configuration (SamlSpConfig) after applying the
defaults computed at the top of createSamlSp. -/
structure SamlSpConfig where
  defaultRedirectUrl : String := "/"
  logoutRedirectUrl : String := "/"
  allowedRedirectHosts : Option (List String) := none
  stateMaxAge : Int := 300000
  regenerateSession : Bool := true
  getNameId : Option (HttpReq → Option String) := none
  onAuth : SamlUser → UserData

/-- The externally visible outcome of one request: a redirect, a 400
client error, an auto-submitting form page (action and field values
already HTML-escaped), or an error passed to `next(err)`. -/
inductive HttpOutcome where
  | redirect (url : String)
  | badRequest (message : String)
  | autoForm (action : String) (fields : List (String × String))
  | errorNext (err : String)
deriving DecidableEq

/-- Whether an outcome is a redirect. -/
def HttpOutcome.isRedirect : HttpOutcome → Bool
  | .redirect _ => true
  | _ => false

/-- The POST /acs relay-state computation: the relayState from the
stored CSRF state (never from the request), with the empty string
falling back to the default, re-validated against the redirect policy
and replaced by the default when invalid. -/
def acsRelayState (cfg : SamlSpConfig) (storedState : LoginStateRec) : String :=
  let relayState := jsOrStr storedState.relayState cfg.defaultRedirectUrl
  if isValidRedirectUrl relayState cfg.allowedRedirectHosts then relayState
  else cfg.defaultRedirectUrl

/-- The session updates on the POST /acs success path: with session
regeneration enabled and available, the session is regenerated (a fresh
session receiving only the saved user record and SAML name data);
otherwise the user record and SAML name data are written in place and
the CSRF login state is deleted. -/
def acsSuccessSession (cfg : SamlSpConfig) (sess : Option SessionState)
    (user : UserData) (nameId nameIdFormat : String) : Option SessionState :=
  match sess with
  | some s =>
    if cfg.regenerateSession && s.hasRegenerate then
      some { samlLoginState := none, user := some user, samlNameId := some nameId,
             samlNameIdFormat := some nameIdFormat, hasRegenerate := true }
    else
      some { s with
             user := some user, samlNameId := some nameId,
             samlNameIdFormat := some nameIdFormat, samlLoginState := none }
  | none => none

/-- Embedding of the POST /acs handler (createSamlSp): require a
SAMLResponse, validate the stored CSRF state and its age, compute the
redirect target from the stored state, process and accept the SSO
response through the engine, extract the user, invoke onAuth, update the
session and redirect.  Thrown errors become `next(err)`. -/
def acsHandler (cfg : SamlSpConfig) (e : Engine) (now : Int) (req : HttpReq)
    (sess : Option SessionState) : HttpOutcome × Option SessionState :=
  if !jsTruthy req.bodySamlResponse then
    (.badRequest "Missing SAMLResponse", sess)
  else
    match sess.bind fun s => s.samlLoginState with
    | none => (.badRequest "SAML state expired or missing", sess)
    | some storedState =>
      if now - storedState.timestamp > cfg.stateMaxAge then
        (.badRequest "SAML state expired or missing", sess)
      else
        match Login.processResponseMsg e Login.init (req.bodySamlResponse.getD "") with
        | .error err => (.errorNext err, sess)
        | .ok l1 =>
          match Login.acceptSso e l1 with
          | .error err => (.errorNext err, sess)
          | .ok l2 =>
            if !jsTruthy (Login.getNameId l2) then
              (.errorNext "No NameID in SAML response", sess)
            else
              (.redirect (acsRelayState cfg storedState),
               acsSuccessSession cfg sess
                 (cfg.onAuth
                   { nameId := (Login.getNameId l2).getD "",
                     nameIdFormat := jsOrOpt (Login.getNameIdFormat l2) nameIdFormatUnspecified })
                 ((Login.getNameId l2).getD "")
                 (jsOrOpt (Login.getNameIdFormat l2) nameIdFormatUnspecified))

/-- Embedding of the GET /logout handler (createSamlSp): resolve the
principal's nameId through the configured accessor or the session; with
no principal, clear the user record and redirect to the post-logout
target; with a principal, create a Logout transaction, call its (absent)
setNameId method, initialize and build the logout request through the
engine and respond with a redirect or an auto-submitting form. -/
def logoutHandler (cfg : SamlSpConfig) (e : Engine) (req : HttpReq)
    (sess : Option SessionState) : HttpOutcome × Option SessionState :=
  let nameId : Option String :=
    match cfg.getNameId with
    | some f => f req
    | none => sess.bind fun s => s.samlNameId
  if !jsTruthy nameId then
    (.redirect cfg.logoutRedirectUrl, sess.map fun s => { s with user := none })
  else
    let fmt := jsOrOpt (sess.bind fun s => s.samlNameIdFormat) nameIdFormatUnspecified
    match logoutCallSetNameId Logout.init (nameId.getD "") fmt with
    | .error err => (.errorNext err, sess)
    | .ok lg1 =>
      match e.logoutInitRequest lg1.profile with
      | .error err => (.errorNext err, sess)
      | .ok p1 =>
        match e.logoutBuildRequestMsg p1 with
        | .error err => (.errorNext err, sess)
        | .ok p2 =>
          if jsTruthy p2.msgUrl then
            (.redirect (p2.msgUrl.getD ""), sess)
          else
            (.autoForm (escapeHtml (jsOrOpt p2.msgUrl ""))
              [("SAMLRequest", escapeHtml (jsOrOpt p2.msgBody ""))], sess)

/-- Embedding of the GET /slo handler (createSamlSp): dispatch on the
SAMLResponse / SAMLRequest query parameters.  A logout response is
processed and the session cleared before redirecting to the post-logout
target.  A logout request is processed, the session cleared, and only
then is the logout response message built and a redirect issued to its
URL (or the post-logout target when it has none); a thrown engine error
at any point becomes `next(err)`. -/
def sloGetHandler (cfg : SamlSpConfig) (e : Engine) (req : HttpReq)
    (sess : Option SessionState) : HttpOutcome × Option SessionState :=
  if jsTruthy req.querySamlResponse then
    match e.logoutProcessResponseMsg Profile.empty (req.querySamlResponse.getD "") with
    | .error err => (.errorNext err, sess)
    | .ok _ =>
      (.redirect cfg.logoutRedirectUrl,
       sess.map fun s => { s with user := none, samlNameId := none, samlNameIdFormat := none })
  else if jsTruthy req.querySamlRequest then
    match e.logoutProcessRequestMsg Profile.empty (req.querySamlRequest.getD "") with
    | .error err => (.errorNext err, sess)
    | .ok p1 =>
      match e.logoutBuildResponseMsg p1 with
      | .error err =>
        (.errorNext err,
         sess.map fun s => { s with user := none, samlNameId := none, samlNameIdFormat := none })
      | .ok p2 =>
        (.redirect (jsOrOpt p2.msgUrl cfg.logoutRedirectUrl),
         sess.map fun s => { s with user := none, samlNameId := none, samlNameIdFormat := none })
  else
    (.badRequest "Missing SAMLRequest or SAMLResponse", sess)

/-! ### Heap model for the copy-on-read contract

The native LassoIdentity / LassoSession objects are not garbage
collected; whether a getter returns a live reference or an independent
copy is a question of object identity.  The heap model makes that
explicit: native objects live in a heap of numbered cells, creation
allocates a fresh cell and `lasso_*_destroy` frees one. -/

/-- A heap of native objects: an allocation counter and the live
cells. -/
structure Heap (α : Type) where
  nextId : Nat
  cells : Nat → Option α

/-- The empty heap. -/
def Heap.empty (α : Type) : Heap α := ⟨0, fun _ => none⟩

/-- Allocate a fresh cell holding `d`, returning its reference. -/
def Heap.alloc {α : Type} (h : Heap α) (d : α) : Heap α × Nat :=
  ({ nextId := h.nextId + 1,
     cells := fun i => if i = h.nextId then some d else h.cells i }, h.nextId)

/-- Destroy the object in cell `r`. -/
def Heap.free {α : Type} (h : Heap α) (r : Nat) : Heap α :=
  { h with cells := fun i => if i = r then none else h.cells i }

/-- Heap well-formedness: cells at or beyond the allocation counter are
unallocated. -/
def Heap.wf {α : Type} (h : Heap α) : Prop :=
  ∀ i, h.nextId ≤ i → h.cells i = none

/-- Heap-level embedding of Identity::NewInstance (src/identity.cc): the
wrapper constructor allocates a fresh empty identity; when the source
object exists it is dumped and a new native identity is restored from
that dump, the default one destroyed and the restored one installed;
when the dump is null the default empty identity is kept; when
restoration fails an error is thrown.  An unallocated source reference
behaves as the null-pointer case. -/
def Identity.newInstanceH (e : Engine) (h : Heap IdentityData) (src : Nat) :
    Except String (Heap IdentityData × Nat) :=
  let (h1, rDefault) := h.alloc e.identityEmpty
  match h1.cells src with
  | none => .ok (h1, rDefault)
  | some d =>
    match e.identityDump d with
    | none => .ok (h1, rDefault)
    | some s =>
      match e.identityFromDump s with
      | none => .error "Failed to restore LassoIdentity from dump"
      | some d2 =>
        let (h2, rNew) := h1.alloc d2
        .ok (h2.free rDefault, rNew)

/-- Heap-level embedding of Session::NewInstance (src/session.cc): the
wrapper constructor allocates a fresh empty session; when the source
object exists and dumps, `session_` is overwritten with the object
restored from the dump — which may be null when restoration fails, and
the default session cell is leaked rather than destroyed. -/
def Session.newInstanceH (e : Engine) (h : Heap SessionData) (src : Nat) :
    Heap SessionData × Option Nat :=
  let (h1, rDefault) := h.alloc e.sessionEmpty
  match h1.cells src with
  | none => (h1, some rDefault)
  | some d =>
    match e.sessionDump d with
    | none => (h1, some rDefault)
    | some s =>
      match e.sessionFromDump s with
      | none => (h1, none)
      | some d2 =>
        let (h2, rNew) := h1.alloc d2
        (h2, some rNew)

/-- The profile of a transaction in the heap model: its identity and
session fields are references to native objects. -/
structure ProfileH where
  identityRef : Option Nat := none
  sessionRef : Option Nat := none
deriving DecidableEq

/-- Heap-level embedding of Login::GetIdentity (identical in
Logout::GetIdentity): null when no identity is bound, otherwise a new
wrapper built by Identity::NewInstance from the profile's identity. -/
def Login.getIdentityH (e : Engine) (h : Heap IdentityData) (lg : ProfileH) :
    Except String (Heap IdentityData × Option Nat) :=
  match lg.identityRef with
  | none => .ok (h, none)
  | some r => (Identity.newInstanceH e h r).map fun hr => (hr.1, some hr.2)

/-- Heap-level embedding of Login::GetSession (identical in
Logout::GetSession): null when no session is bound, otherwise a new
wrapper built by Session::NewInstance from the profile's session. -/
def Login.getSessionH (e : Engine) (h : Heap SessionData) (lg : ProfileH) :
    Heap SessionData × Option (Option Nat) :=
  match lg.sessionRef with
  | none => (h, none)
  | some r =>
    let (h2, w) := Session.newInstanceH e h r
    (h2, some w)

/-- Heap-level embedding of the null branch of Login::SetIdentity:
assigning null destroys the transaction's identity object. -/
def Login.setIdentityNullH (h : Heap IdentityData) (lg : ProfileH) :
    Heap IdentityData × ProfileH :=
  match lg.identityRef with
  | none => (h, lg)
  | some r => (h.free r, { lg with identityRef := none })

/-! ### Concrete instances used to evaluate the model -/

/-- A trivial concrete engine: every message operation succeeds leaving
the profile unchanged, and the opaque blobs serialize to themselves. -/
def idEngine : Engine where
  loginProcessResponseMsg := fun p _ => .ok p
  loginAcceptSso := fun p => .ok p
  logoutInitRequest := fun p => .ok p
  logoutBuildRequestMsg := fun p => .ok p
  logoutProcessRequestMsg := fun p _ => .ok p
  logoutProcessResponseMsg := fun p _ => .ok p
  logoutBuildResponseMsg := fun p => .ok p
  identityEmpty := ⟨""⟩
  identityDump := fun d => some d.blob
  identityFromDump := fun s => some ⟨s⟩
  sessionEmpty := ⟨""⟩
  sessionDump := fun d => some d.blob
  sessionFromDump := fun s => some ⟨s⟩
  sessionIsEmpty := fun d => d.blob == ""
  sessionGetAssertions := fun _ _ => []

/-- A concrete engine whose response processing succeeds and extracts a
name identifier, as a successfully validated SSO response would. -/
def okEngine : Engine :=
  { idEngine with
    loginProcessResponseMsg := fun p _ =>
      .ok { p with
            nameIdentifier := some { content := some "user@example.com",
                                     format := some "urn:oasis:names:tc:SAML:1.1:nameid-format:emailAddress" } } }

/-- A concrete engine whose logout response building fails. -/
def buildFailEngine : Engine :=
  { idEngine with
    logoutBuildResponseMsg := fun _ => .error "lasso_logout_build_response_msg failed" }

/-- A concrete middleware configuration with the documented defaults. -/
def cfg0 : SamlSpConfig where
  onAuth := fun u => ⟨u.nameId⟩

/-- A session holding a pending CSRF login state created at time 0. -/
def sessPending : SessionState :=
  { samlLoginState := some { relayState := "/dash", nonce := "nonce", timestamp := 0 } }

/-- An authenticated session (user record and SAML name data set). -/
def sessAuthed : SessionState :=
  { user := some ⟨"u"⟩, samlNameId := some "user@example.com",
    samlNameIdFormat := some "urn:oasis:names:tc:SAML:1.1:nameid-format:emailAddress" }

/-- A POST /acs request carrying a SAMLResponse. -/
def reqAcs : HttpReq := { bodySamlResponse := some "resp" }

/-- A GET /slo request carrying a SAMLRequest. -/
def reqSloReq : HttpReq := { querySamlRequest := some "logoutreq" }

/-- A request with no SAML parameters (as GET /logout receives). -/
def reqEmpty : HttpReq := {}

/-- The round-trip contract the spec requires of the external engine's
serialization: restoring a dump yields an object with the same dump, and
for sessions the same emptiness and the same assertions per provider. -/
structure EngineRT (e : Engine) : Prop where
  identityRoundTrip : ∀ d s, e.identityDump d = some s →
    ∃ d2, e.identityFromDump s = some d2 ∧ e.identityDump d2 = some s
  sessionRoundTrip : ∀ d s, e.sessionDump d = some s →
    ∃ d2, e.sessionFromDump s = some d2 ∧ e.sessionDump d2 = some s ∧
      e.sessionIsEmpty d2 = e.sessionIsEmpty d ∧
      ∀ pid, e.sessionGetAssertions d2 pid = e.sessionGetAssertions d pid

/-- A concrete identity heap with one allocated native identity. -/
def heapI0 : Heap IdentityData := ((Heap.empty IdentityData).alloc ⟨"idblob"⟩).1

/-- A concrete session heap with one allocated native session. -/
def heapS0 : Heap SessionData := ((Heap.empty SessionData).alloc ⟨"sessblob"⟩).1

/-- A concrete transaction profile bound to the allocated native
objects. -/
def profH0 : ProfileH := { identityRef := some 0, sessionRef := some 0 }

/-! ## Theorems -/

/-- The trivial engine satisfies the round-trip contract. -/
theorem engineRT_id : EngineRT idEngine := by
  constructor
  · intro d s hd
    refine ⟨⟨s⟩, rfl, ?_⟩
    simp only [idEngine, Option.some.injEq] at hd
    simp [idEngine, ← hd]
  · intro d s hd
    simp only [idEngine, Option.some.injEq] at hd
    exact ⟨⟨s⟩, rfl, rfl, by simp [idEngine, ← hd], fun pid => rfl⟩

/-- Splitting a character list at the first colon decomposes the
list. -/
theorem splitSchemeAux_append : ∀ {l pre post : List Char},
    splitSchemeAux l = some (pre, post) → l = pre ++ ':' :: post := by
  intro l
  induction l with
  | nil => intro pre post h; simp [splitSchemeAux] at h
  | cons c cs ih =>
    intro pre post h
    simp only [splitSchemeAux] at h
    by_cases hc : c = ':'
    · subst hc
      simp only [beq_self_eq_true, if_pos] at h
      cases h
      simp
    · rw [if_neg (by simp [hc])] at h
      cases hsp : splitSchemeAux cs with
      | none => rw [hsp] at h; cases h
      | some pr =>
        rw [hsp] at h
        cases pr with
        | mk a b =>
          cases h
          have := ih hsp
          simp [this]

/-- A string starts with a slash exactly when its character data
does. -/
theorem jsStartsWith_slash_iff {t : String} :
    jsStartsWith t "/" = true ↔ ∃ rest, t.data = '/' :: rest := by
  unfold jsStartsWith
  cases hd : t.data with
  | nil => simp [List.isPrefixOf]
  | cons c cs =>
    simp only [List.isPrefixOf, show ("/").data = ['/'] from rfl]
    constructor
    · intro h
      simp at h
      exact ⟨cs, by rw [h]⟩
    · rintro ⟨rest, hr⟩
      cases hr
      simp

/-- A string starting with a slash has no valid URL scheme, so the URL
parser rejects it. -/
theorem urlHost_none_of_slash {t : String} (h : jsStartsWith t "/" = true) :
    urlHost t = none := by
  obtain ⟨rest, hr⟩ := jsStartsWith_slash_iff.mp h
  unfold urlHost
  rw [hr]
  cases hsp : splitSchemeAux ('/' :: rest) with
  | none => rfl
  | some pr =>
    cases pr with
    | mk pre post =>
      have happ := splitSchemeAux_append hsp
      cases pre with
      | nil => simp at happ
      | cons p ps =>
        have hp : p = '/' := by
          have := congrArg (fun l => l.head?) happ
          simp at this
          exact this.symm
        subst hp
        have : validSchemeChars ('/' :: ps) = false := by
          simp [validSchemeChars]
        simp [this]

/-- A protocol-relative string also starts with a single slash. -/
theorem jsStartsWith_slash_of_dslash {t : String} (h : jsStartsWith t "//" = true) :
    jsStartsWith t "/" = true := by
  unfold jsStartsWith at *
  cases hd : t.data with
  | nil => rw [hd] at h; simp [List.isPrefixOf] at h
  | cons c cs =>
    rw [hd] at h
    simp only [show ("//").data = ['/', '/'] from rfl, List.isPrefixOf,
      Bool.and_eq_true, beq_iff_eq] at h
    simp [List.isPrefixOf, h.1.symm]

/-- A string the URL parser accepts does not start with a slash. -/
theorem jsStartsWith_false_of_urlHost {t : String} {h : String}
    (hh : urlHost t = some h) : jsStartsWith t "/" = false := by
  by_cases hs : jsStartsWith t "/" = true
  · rw [urlHost_none_of_slash hs] at hh; cases hh
  · simpa using hs

/-- The empty heap is well formed. -/
theorem Heap.wf_empty (α : Type) : (Heap.empty α).wf := fun _ _ => rfl

/-- Allocation preserves heap well-formedness. -/
theorem Heap.wf_alloc {α : Type} {h : Heap α} {d : α} (hw : h.wf) : (h.alloc d).1.wf := by
  intro i hi
  simp only [Heap.alloc] at hi ⊢
  rw [if_neg (by omega)]
  exact hw i (by omega)

/-- In a well-formed heap an allocated cell lies below the allocation
counter. -/
theorem Heap.lt_nextId_of_cells {α : Type} {h : Heap α} {r : Nat} {d : α}
    (hw : h.wf) (hc : h.cells r = some d) : r < h.nextId := by
  by_contra hge
  rw [hw r (by omega)] at hc
  cases hc

/-- Claim C1 (code bug witness): on a GET /logout request with a
principal bound (the session carries samlNameId), the middleware does
not initiate SP-driven logout.  The Logout binding registers no
setNameId method — Logout.instanceMethodNames, taken from the DefineClass
call in src/logout.cc, does not contain it — so the handler's call
`logout.setNameId(...)` throws a TypeError that lands in `next(err)`
instead of building a logout request and redirecting.  The no-principal
branch does behave as claimed: it clears the user record and redirects
to the configured post-logout target. -/
theorem C1_logout_setNameId_missing :
    Logout.instanceMethodNames.contains "setNameId" = false ∧
    logoutHandler cfg0 idEngine reqEmpty (some sessAuthed) =
      (.errorNext "logout.setNameId is not a function", some sessAuthed) ∧
    logoutHandler cfg0 idEngine reqEmpty
        (some { sessAuthed with samlNameId := none }) =
      (.redirect "/", some { sessAuthed with samlNameId := none, user := none }) :=
  ⟨by decide, by rfl, by rfl⟩

/-- Claim C2 (counterexample): a Login transaction on which acceptSso
was never called can have a non-null nameId — constructing a transaction
and calling setNameId is an acceptSso-free operation sequence after
which the nameId accessor returns the set value. -/
theorem C2_counterexample :
    acceptSsoFree [LoginOp.setNameId "user@example.com" none] = true ∧
    Login.runOps idEngine [LoginOp.setNameId "user@example.com" none] Login.init =
      .ok (Login.setNameId Login.init "user@example.com" none) ∧
    Login.getNameId (Login.setNameId Login.init "user@example.com" none) =
      some "user@example.com" :=
  ⟨rfl, rfl, rfl⟩

/-- Claim C2 (amended): on a freshly constructed Login transaction the
accessors nameId, nameIdFormat, identity and session all return null;
but the accessors are gated on the profile state, not on a successful
acceptSso — setNameId alone already makes nameId return the set value
and nameIdFormat the set (or default) format. -/
theorem C2_accessors (v : String) (fmt : Option String) :
    Login.getNameId Login.init = none ∧ Login.getNameIdFormat Login.init = none ∧
    Login.getIdentity Login.init = none ∧ Login.getSession Login.init = none ∧
    Login.getNameId (Login.setNameId Login.init v fmt) = some v ∧
    Login.getNameIdFormat (Login.setNameId Login.init v fmt) =
      some (fmt.getD saml2NameIdFormatUnspecified) :=
  ⟨rfl, rfl, rfl, rfl, rfl, rfl⟩

/-- Claim C3 (counterexample): a GET /slo carrying a logout request
while authenticated, with an engine whose logout response building
fails, does not issue a redirect — the error goes to `next(err)` — even
though the local authenticated state has already been cleared. -/
theorem C3_counterexample :
    (sloGetHandler cfg0 buildFailEngine reqSloReq (some sessAuthed)).1 =
      .errorNext "lasso_logout_build_response_msg failed" ∧
    HttpOutcome.isRedirect
      (sloGetHandler cfg0 buildFailEngine reqSloReq (some sessAuthed)).1 = false ∧
    (sloGetHandler cfg0 buildFailEngine reqSloReq (some sessAuthed)).2 =
      some { sessAuthed with user := none, samlNameId := none, samlNameIdFormat := none } :=
  ⟨rfl, rfl, rfl⟩

/-- Claim C3 (amended): for a GET /slo carrying a logout request
parameter while the session is authenticated, provided the request
message parses, the authenticated state (user record, samlNameId,
samlNameIdFormat) is cleared before the reply is built — it ends cleared
whether or not building the reply succeeds; on build success a redirect
is issued to the produced URL (or the post-logout target when none), and
on build failure the error propagates with no redirect. -/
theorem C3_slo_clears_before_build (cfg : SamlSpConfig) (e : Engine) (req : HttpReq)
    (st : SessionState) (p1 : Profile)
    (_hauth : st.user ≠ none)
    (hnoresp : jsTruthy req.querySamlResponse = false)
    (hreq : jsTruthy req.querySamlRequest = true)
    (hok : e.logoutProcessRequestMsg Profile.empty (req.querySamlRequest.getD "") = .ok p1) :
    (sloGetHandler cfg e req (some st)).2 =
      some { st with user := none, samlNameId := none, samlNameIdFormat := none } ∧
    (match e.logoutBuildResponseMsg p1 with
     | .ok p2 => (sloGetHandler cfg e req (some st)).1 =
         .redirect (jsOrOpt p2.msgUrl cfg.logoutRedirectUrl)
     | .error err => (sloGetHandler cfg e req (some st)).1 = .errorNext err) := by
  cases hb : e.logoutBuildResponseMsg p1 with
  | ok p2 =>
    constructor
    · simp [sloGetHandler, hnoresp, hreq, hok, hb]
    · simp [sloGetHandler, hnoresp, hreq, hok, hb]
  | error err =>
    constructor
    · simp [sloGetHandler, hnoresp, hreq, hok, hb]
    · simp [sloGetHandler, hnoresp, hreq, hok, hb]

/-- Claim C3 witness: the amended statement evaluated at a concrete
authenticated session and an engine whose build succeeds. -/
theorem C3_witness :
    (sloGetHandler cfg0 idEngine reqSloReq (some sessAuthed)).2 =
      some { sessAuthed with user := none, samlNameId := none, samlNameIdFormat := none } ∧
    (sloGetHandler cfg0 idEngine reqSloReq (some sessAuthed)).1 = .redirect "/" := by
  have h := C3_slo_clears_before_build cfg0 idEngine reqSloReq sessAuthed Profile.empty
    (by simp [sessAuthed]) rfl rfl rfl
  exact ⟨h.1, h.2⟩

/-- Claim C4 (counterexample): a POST /acs whose stored CSRF state has
expired responds 400 but does not delete the stored CSRF state — the
session still carries it afterwards. -/
theorem C4_counterexample :
    (acsHandler cfg0 idEngine 300001 reqAcs (some sessPending)).1 =
      .badRequest "SAML state expired or missing" ∧
    ((acsHandler cfg0 idEngine 300001 reqAcs (some sessPending)).2.bind
        fun s => s.samlLoginState) =
      some { relayState := "/dash", nonce := "nonce", timestamp := 0 } :=
  ⟨rfl, rfl⟩

/-- Claim C4 (amended): for every POST /acs whose stored CSRF login
state is absent or older than the configured stateMaxAge, the middleware
responds 400 and performs no session mutation at all — in particular the
stored CSRF state is left in place, not deleted. -/
theorem C4_expired_state (cfg : SamlSpConfig) (e : Engine) (now : Int) (req : HttpReq)
    (sess : Option SessionState)
    (hresp : jsTruthy req.bodySamlResponse = true)
    (hexp : sess.bind (fun s => s.samlLoginState) = none ∨
            ∃ st, sess.bind (fun s => s.samlLoginState) = some st ∧
              now - st.timestamp > cfg.stateMaxAge) :
    acsHandler cfg e now req sess = (.badRequest "SAML state expired or missing", sess) := by
  unfold acsHandler
  rw [hresp]
  cases hexp with
  | inl hnone => rw [hnone]; simp
  | inr hex =>
    obtain ⟨st, hst, hage⟩ := hex
    rw [hst]
    simp [hage]

/-- Claim C4 witness: the amended statement evaluated at a concrete
expired state (age 300001 ms against the 300000 ms default). -/
theorem C4_witness :
    acsHandler cfg0 idEngine 300001 reqAcs (some sessPending) =
      (.badRequest "SAML state expired or missing", some sessPending) := by
  apply C4_expired_state
  · rfl
  · right
    exact ⟨_, rfl, by decide⟩

/-- Claim C5: the POST /acs redirect target is computed solely from the
relayState recorded in the stored CSRF state (with fallback to the
configured default): the handler's outcome is independent of any
RelayState supplied in the request body, and every redirect it issues
targets acsRelayState of the stored state. -/
theorem C5_stored_relayState (cfg : SamlSpConfig) (e : Engine) (now : Int)
    (req : HttpReq) (sess : Option SessionState) :
    (∀ a b : Option String,
       acsHandler cfg e now { req with bodyRelayState := a } sess =
       acsHandler cfg e now { req with bodyRelayState := b } sess) ∧
    (∀ u sess2, acsHandler cfg e now req sess = (.redirect u, sess2) →
       ∃ st, sess.bind (fun s => s.samlLoginState) = some st ∧
         u = acsRelayState cfg st) := by
  constructor
  · intro a b; rfl
  · intro u sess2 hrun
    unfold acsHandler at hrun
    split at hrun
    next => simp at hrun
    next =>
      split at hrun
      next => simp at hrun
      next storedState heq =>
        split at hrun
        next => simp at hrun
        next =>
          split at hrun
          next => simp at hrun
          next l1 heq1 =>
            split at hrun
            next => simp at hrun
            next l2 heq2 =>
              split at hrun
              next => simp at hrun
              next =>
                injection hrun with h1 h2
                injection h1 with h3
                exact ⟨storedState, heq, h3.symm⟩

/-- Claim C5 witness: a concrete successful /acs run whose redirect is
the relay target recorded in the stored CSRF state. -/
theorem C5_witness :
    ∃ st, (some sessPending).bind (fun s => s.samlLoginState) = some st ∧
      "/dash" = acsRelayState cfg0 st :=
  (C5_stored_relayState cfg0 okEngine 299999 reqAcs (some sessPending)).2
    "/dash" (acsHandler cfg0 okEngine 299999 reqAcs (some sessPending)).2 rfl

/-- Claim C6: the redirect validator accepts every target starting with
a single slash regardless of configuration; rejects every
protocol-relative target; rejects an absolute URL whose host is not in
the configured allow-list; rejects every absolute URL when no allow-list
is configured; and accepts an absolute URL whose host is allow-listed. -/
theorem C6_redirect_validator (t h : String) (hosts : List String) :
    (jsStartsWith t "/" = true ∧ jsStartsWith t "//" = false →
       ∀ ah : Option (List String), isValidRedirectUrl t ah = true) ∧
    (jsStartsWith t "//" = true →
       ∀ ah : Option (List String), isValidRedirectUrl t ah = false) ∧
    (urlHost t = some h → hosts.contains h = false →
       isValidRedirectUrl t (some hosts) = false) ∧
    (urlHost t = some h → isValidRedirectUrl t none = false) ∧
    (urlHost t = some h → hosts.contains h = true →
       isValidRedirectUrl t (some hosts) = true) := by
  refine ⟨?_, ?_, ?_, ?_, ?_⟩
  · rintro ⟨h1, h2⟩ ah
    unfold isValidRedirectUrl
    rw [h1, h2]
    simp
  · intro h2 ah
    have h1 := jsStartsWith_slash_of_dslash h2
    unfold isValidRedirectUrl
    rw [h1, h2, urlHost_none_of_slash h1]
    cases ah with
    | none => simp
    | some hs => simp
  · intro hh hc
    have h1 := jsStartsWith_false_of_urlHost hh
    unfold isValidRedirectUrl
    rw [h1, hh]
    simp [hc]
    intro _
    simpa using hc
  · intro hh
    have h1 := jsStartsWith_false_of_urlHost hh
    unfold isValidRedirectUrl
    rw [h1]
    simp
  · intro hh hc
    have h1 := jsStartsWith_false_of_urlHost hh
    unfold isValidRedirectUrl
    rw [h1, hh]
    have hne : (hosts.length != 0) = true := by
      cases hosts with
      | nil => simp [List.contains] at hc
      | cons a as => simp
    simp [hne, hc]
    simpa using hc

/-- Claim C6 witness: the validator evaluated at a relative target and
at an allow-listed absolute URL. -/
theorem C6_witness :
    (jsStartsWith "/dash" "/" = true ∧ jsStartsWith "/dash" "//" = false) ∧
    isValidRedirectUrl "/dash" (some ["example.com"]) = true ∧
    urlHost "https://example.com/path" = some "example.com" ∧
    isValidRedirectUrl "https://example.com/path" (some ["example.com"]) = true := by
  refine ⟨⟨by decide, by decide⟩, ?_, by decide, ?_⟩
  · exact (C6_redirect_validator "/dash" "" []).1 ⟨by decide, by decide⟩ (some ["example.com"])
  · exact (C6_redirect_validator "https://example.com/path" "example.com"
      ["example.com"]).2.2.2.2 (by decide) (by decide)

/-- Claim C7: with the default stateMaxAge of 300000 ms, a stored CSRF
state of age 299999 ms passes the age check (the request proceeds to a
redirect), age 300000 still passes (the comparison is strictly greater
than), and age 300001 is rejected with the 400 expiry response. -/
theorem C7_state_age_boundary :
    (acsHandler cfg0 okEngine 299999 reqAcs (some sessPending)).1 = .redirect "/dash" ∧
    (acsHandler cfg0 okEngine 300000 reqAcs (some sessPending)).1 = .redirect "/dash" ∧
    (acsHandler cfg0 okEngine 300001 reqAcs (some sessPending)).1 =
      .badRequest "SAML state expired or missing" :=
  ⟨rfl, rfl, rfl⟩

/-- Claim C8: under the engine serialization round-trip contract,
restoring an Identity or Session wrapper from its dump succeeds and
preserves isEmpty; for a Session the restored object also reports the
same assertions per provider. -/
theorem C8_serialization_roundTrip (e : Engine) (hrt : EngineRT e) :
    (∀ (x : IdentityW) (s : String), Identity.dump e x = some s →
       ∃ y, Identity.fromDump e s = .ok y ∧
         Identity.isEmpty e y = Identity.isEmpty e x) ∧
    (∀ (x : SessionW) (s : String), Session.dump e x = some s →
       ∃ y, Session.fromDump e s = .ok y ∧
         Session.isEmpty e y = Session.isEmpty e x ∧
         ∀ pid, Session.getAssertions e y pid = Session.getAssertions e x pid) := by
  constructor
  · rintro ⟨xd⟩ s hdump
    cases xd with
    | none => simp [Identity.dump] at hdump
    | some d =>
      simp only [Identity.dump, Option.some_bind] at hdump
      obtain ⟨d2, hfd, hdd⟩ := hrt.identityRoundTrip d s hdump
      refine ⟨⟨some d2⟩, ?_, ?_⟩
      · simp [Identity.fromDump, hfd]
      · simp [Identity.isEmpty, hdd, hdump]
  · rintro ⟨xd⟩ s hdump
    cases xd with
    | none => simp [Session.dump] at hdump
    | some d =>
      simp only [Session.dump, Option.some_bind] at hdump
      obtain ⟨d2, hfd, hdd, hemp, hass⟩ := hrt.sessionRoundTrip d s hdump
      refine ⟨⟨some d2⟩, ?_, ?_, ?_⟩
      · simp [Session.fromDump, hfd]
      · simp [Session.isEmpty, hemp]
      · intro pid; simp [Session.getAssertions, hass]

/-- Claim C8 witness: the round trip evaluated on a freshly created
(empty) Identity under the trivial engine. -/
theorem C8_witness :
    ∃ y, Identity.fromDump idEngine "" = .ok y ∧
      Identity.isEmpty idEngine y = Identity.isEmpty idEngine (Identity.new idEngine) :=
  (C8_serialization_roundTrip idEngine engineRT_id).1 (Identity.new idEngine) "" rfl

/-- Claim C9: reading the identity or session of a transaction with a
bound identity/session yields an independent copy: the returned
wrapper's native object is a fresh cell distinct from the transaction's,
it is materialized by dumping the transaction's object and restoring
from that dump (or is the fresh empty default when the dump is null),
and destroying the transaction's object afterwards — directly or through
assigning null to the identity property — leaves the copy unchanged. -/
theorem C9_copy_on_read (e : Engine) (hI : Heap IdentityData) (hS : Heap SessionData)
    (lg : ProfileH) (rI rS : Nat) (dI : IdentityData) (dS : SessionData)
    (hwfI : hI.wf) (hwfS : hS.wf)
    (hrI : lg.identityRef = some rI) (hdI : hI.cells rI = some dI)
    (hrS : lg.sessionRef = some rS) (hdS : hS.cells rS = some dS) :
    (∀ hI2 w, Login.getIdentityH e hI lg = .ok (hI2, some w) →
       w ≠ rI ∧
       (hI2.free rI).cells w = hI2.cells w ∧
       (Login.setIdentityNullH hI2 lg).1.cells w = hI2.cells w ∧
       (match e.identityDump dI with
        | some s => ∃ d2, e.identityFromDump s = some d2 ∧ hI2.cells w = some d2
        | none => hI2.cells w = some e.identityEmpty)) ∧
    (∀ hS2 w, Login.getSessionH e hS lg = (hS2, some (some w)) →
       w ≠ rS ∧ (hS2.free rS).cells w = hS2.cells w) := by
  have hIlt : rI < hI.nextId := Heap.lt_nextId_of_cells hwfI hdI
  have hSlt : rS < hS.nextId := Heap.lt_nextId_of_cells hwfS hdS
  have hneI : ¬ rI = hI.nextId := by omega
  have hneS : ¬ rS = hS.nextId := by omega
  constructor
  · intro hI2 w hrun
    cases hdmp : e.identityDump dI with
    | none =>
      simp only [Login.getIdentityH, hrI, Identity.newInstanceH, Heap.alloc, hneI,
        if_false, hdI, hdmp, Except.map, Except.ok.injEq, Prod.mk.injEq,
        Option.some.injEq] at hrun
      obtain ⟨hheap, hw⟩ := hrun
      subst hheap hw
      refine ⟨by omega, ?_, ?_, ?_⟩
      · simp only [Heap.free]
        rw [if_neg (by omega : ¬ hI.nextId = rI)]
      · simp only [Login.setIdentityNullH, hrI, Heap.free]
        rw [if_neg (by omega : ¬ hI.nextId = rI)]
      · simp [hdmp]
    | some s =>
      cases hfd : e.identityFromDump s with
      | none =>
        simp only [Login.getIdentityH, hrI, Identity.newInstanceH, Heap.alloc, hneI,
          if_false, hdI, hdmp, hfd, Except.map] at hrun
        cases hrun
      | some d2 =>
        simp only [Login.getIdentityH, hrI, Identity.newInstanceH, Heap.alloc, hneI,
          if_false, hdI, hdmp, hfd, Except.map, Except.ok.injEq, Prod.mk.injEq,
          Option.some.injEq] at hrun
        obtain ⟨hheap, hw⟩ := hrun
        subst hheap hw
        refine ⟨by omega, ?_, ?_, ?_⟩
        · simp only [Heap.free]
          rw [if_neg (by omega : ¬ hI.nextId + 1 = rI)]
        · simp only [Login.setIdentityNullH, hrI, Heap.free]
          rw [if_neg (by omega : ¬ hI.nextId + 1 = rI)]
        · simp only [hdmp]
          refine ⟨d2, hfd, ?_⟩
          simp only [Heap.free, Heap.alloc]
          rw [if_neg (by omega : ¬ hI.nextId + 1 = hI.nextId)]
          simp
  · intro hS2 w hrun
    cases hdmp : e.sessionDump dS with
    | none =>
      simp only [Login.getSessionH, hrS, Session.newInstanceH, Heap.alloc, hneS,
        if_false, hdS, hdmp, Prod.mk.injEq, Option.some.injEq] at hrun
      obtain ⟨hheap, hw⟩ := hrun
      subst hheap hw
      refine ⟨by omega, ?_⟩
      simp only [Heap.free]
      rw [if_neg (by omega : ¬ hS.nextId = rS)]
    | some s =>
      cases hfd : e.sessionFromDump s with
      | none =>
        simp only [Login.getSessionH, hrS, Session.newInstanceH, Heap.alloc, hneS,
          if_false, hdS, hdmp, hfd, Prod.mk.injEq, Option.some.injEq] at hrun
        obtain ⟨hheap, hw⟩ := hrun
        cases hw
      | some d2 =>
        simp only [Login.getSessionH, hrS, Session.newInstanceH, Heap.alloc, hneS,
          if_false, hdS, hdmp, hfd, Prod.mk.injEq, Option.some.injEq] at hrun
        obtain ⟨hheap, hw⟩ := hrun
        subst hheap hw
        refine ⟨by omega, ?_⟩
        simp only [Heap.free, Heap.alloc]
        rw [if_neg (by omega : ¬ hS.nextId + 1 = rS)]

/-- Claim C9 witness: the copy-on-read statement evaluated on a concrete
heap — the getter returns the fresh cell 2, distinct from the bound
cell 0, and freeing cell 0 leaves it unchanged. -/
theorem C9_witness :
    ∃ hI2, Login.getIdentityH idEngine heapI0 profH0 = .ok (hI2, some 2) ∧
      2 ≠ 0 ∧ (hI2.free 0).cells 2 = hI2.cells 2 := by
  refine ⟨(((heapI0.alloc ⟨""⟩).1.alloc ⟨"idblob"⟩).1.free 1), rfl, ?_⟩
  have h := (C9_copy_on_read idEngine heapI0 heapS0 profH0 0 0 ⟨"idblob"⟩ ⟨"sessblob"⟩
      (Heap.wf_alloc (Heap.wf_empty _)) (Heap.wf_alloc (Heap.wf_empty _)) rfl rfl rfl rfl).1
      (((heapI0.alloc ⟨""⟩).1.alloc ⟨"idblob"⟩).1.free 1) 2 rfl
  exact ⟨h.1, h.2.1⟩

/-- Claim C10: setAttributes on a Login transaction succeeds on every
array argument leaving the entire observable state (nameId,
nameIdFormat, identity, session, relayState, msgUrl, msgBody and the
whole profile) unchanged, and throws a TypeError on a non-array argument
— also without state change, the error being raised before any
mutation. -/
theorem C10_setAttributes_frame (l : LoginT) (arg : JsArg) :
    (arg.isArr = true → Login.setAttributes l arg = .ok l) ∧
    (arg.isArr = false → Login.setAttributes l arg = .error "Expected array of attributes") ∧
    (∀ r, Login.setAttributes l arg = .ok r →
       Login.getNameId r = Login.getNameId l ∧
       Login.getNameIdFormat r = Login.getNameIdFormat l ∧
       Login.getIdentity r = Login.getIdentity l ∧
       Login.getSession r = Login.getSession l ∧
       Login.getRelayState r = Login.getRelayState l ∧
       Login.getMsgUrl r = Login.getMsgUrl l ∧
       Login.getMsgBody r = Login.getMsgBody l ∧
       r.profile = l.profile) := by
  refine ⟨?_, ?_, ?_⟩
  · intro ha; simp [Login.setAttributes, ha]
  · intro ha; simp [Login.setAttributes, ha]
  · intro r hr
    unfold Login.setAttributes at hr
    by_cases ha : arg.isArr = true
    · rw [if_pos ha] at hr
      cases hr
      exact ⟨rfl, rfl, rfl, rfl, rfl, rfl, rfl, rfl⟩
    · rw [if_neg ha] at hr
      cases hr

/-- Claim C10 witness: setAttributes evaluated on a fresh transaction
and a concrete (empty) attribute array. -/
theorem C10_witness :
    (JsArg.attrs []).isArr = true ∧
    Login.setAttributes Login.init (JsArg.attrs []) = .ok Login.init :=
  ⟨rfl, (C10_setAttributes_frame Login.init (JsArg.attrs [])).1 rfl⟩

end LassoJS
